import Mathlib

/-
Verification of the e-commerce data model and access layer of the
repository (drizzle schema, db.ts query helpers, trpc routers).

Modelling conventions:
- MySQL int columns are modelled as Int, timestamps as Int (epoch millis).
- Nullable columns are Option; columns declared notNull are plain values.
- JavaScript truthiness on a nullable int (as in `if (coupon.usageLimit)`)
  is false for null and for 0; on a nullable Date it is false only for null.
- The database handle that may be null (`getDb` returning null) is an
  Option Store argument; functions that throw return Except String.
- Autoincrement ids are modelled as one more than the largest id present.
-/

namespace ECom

inductive Role where
  | user
  | admin
deriving DecidableEq

inductive OrderStatus where
  | pending
  | confirmed
  | processing
  | shipped
  | delivered
  | cancelled
deriving DecidableEq

inductive PayMethod where
  | creditCard
  | debitCard
  | upi
  | wallet
  | cod
deriving DecidableEq

inductive PaymentState where
  | pending
  | completed
  | failed
deriving DecidableEq

inductive DiscountType where
  | percentage
  | fixed
deriving DecidableEq

inductive AddressType where
  | home
  | work
  | other
deriving DecidableEq

/-- Row of the users table (schema: users). -/
structure User where
  id : Int
  openId : String
  name : Option String := none
  email : Option String := none
  loginMethod : Option String := none
  role : Role := Role.user
  createdAt : Int := 0
  updatedAt : Int := 0
  lastSignedIn : Int := 0
deriving DecidableEq

/-- Row of the categories table. -/
structure Category where
  id : Int
  name : String
  description : Option String := none
  imageUrl : Option String := none
  slug : String
  isActive : Bool := true
  createdAt : Int := 0
  updatedAt : Int := 0
deriving DecidableEq

/-- Row of the products table. Price fields are integer minor units (paise). -/
structure Product where
  id : Int
  categoryId : Int
  name : String
  description : Option String := none
  price : Int
  originalPrice : Option Int := none
  discountPercentage : Option Int := some 0
  imageUrl : Option String := none
  images : Option String := none
  sku : Option String := none
  stock : Int := 0
  rating : Option Int := some 0
  reviewCount : Option Int := some 0
  isActive : Bool := true
  isFeatured : Option Bool := some false
  createdAt : Int := 0
  updatedAt : Int := 0
deriving DecidableEq

/-- Row of the reviews table. -/
structure Review where
  id : Int
  productId : Int
  userId : Int
  rating : Int
  title : Option String := none
  comment : Option String := none
  isVerified : Option Bool := some false
  createdAt : Int := 0
  updatedAt : Int := 0
deriving DecidableEq

/-- Row of the addresses table. -/
structure Address where
  id : Int
  userId : Int
  type : Option AddressType := some AddressType.home
  fullName : String
  phoneNumber : String
  addressLine1 : String
  addressLine2 : Option String := none
  city : String
  state : String
  postalCode : String
  country : Option String := some "India"
  isDefault : Option Bool := some false
  createdAt : Int := 0
  updatedAt : Int := 0
deriving DecidableEq

/-- Row of the cartItems table. -/
structure CartItem where
  id : Int
  userId : Int
  productId : Int
  quantity : Int := 1
  addedAt : Int := 0
  updatedAt : Int := 0
deriving DecidableEq

/-- Row of the wishlistItems table. -/
structure WishlistItem where
  id : Int
  userId : Int
  productId : Int
  addedAt : Int := 0
deriving DecidableEq

/-- Row of the orders table. The status and paymentStatus columns carry a
default of pending and every insert path supplies a value, so they are
modelled as plain values. Monetary fields are integer minor units. -/
structure Order where
  id : Int
  userId : Int
  orderNumber : String
  addressId : Int
  subtotal : Int
  discountAmount : Int := 0
  deliveryCharge : Int := 0
  totalAmount : Int
  status : OrderStatus := OrderStatus.pending
  paymentMethod : Option PayMethod := none
  paymentStatus : PaymentState := PaymentState.pending
  paymentId : Option String := none
  couponCode : Option String := none
  estimatedDeliveryDate : Option Int := none
  deliveryOtp : Option String := none
  deliveryOtpExpiry : Option Int := none
  deliveryOtpVerified : Bool := false
  notes : Option String := none
  createdAt : Int := 0
  updatedAt : Int := 0
deriving DecidableEq

/-- Row of the orderItems table (snapshot of product data at order time). -/
structure OrderItem where
  id : Int
  orderId : Int
  productId : Int
  productName : String
  productImage : Option String := none
  quantity : Int
  price : Int
  createdAt : Int := 0
deriving DecidableEq

/-- Row of the coupons table. All nullable columns keep their Option type
because the validation logic tests them with JavaScript truthiness. -/
structure Coupon where
  id : Int
  code : String
  description : Option String := none
  discountType : DiscountType
  discountValue : Int
  minOrderAmount : Option Int := some 0
  maxDiscount : Option Int := none
  usageLimit : Option Int := none
  usageCount : Option Int := some 0
  expiryDate : Option Int := none
  isActive : Option Bool := some true
  createdAt : Int := 0
  updatedAt : Int := 0
deriving DecidableEq

/-- Row of the banners table. -/
structure Banner where
  id : Int
  title : String
  description : Option String := none
  imageUrl : String
  link : Option String := none
  position : Option Int := some 0
  isActive : Option Bool := some true
  startDate : Option Int := none
  endDate : Option Int := none
  createdAt : Int := 0
  updatedAt : Int := 0
deriving DecidableEq

/-- The persistent store: one list of rows per table of the schema. -/
structure Store where
  users : List User := []
  categories : List Category := []
  products : List Product := []
  reviews : List Review := []
  addresses : List Address := []
  cartItems : List CartItem := []
  wishlistItems : List WishlistItem := []
  orders : List Order := []
  orderItems : List OrderItem := []
  coupons : List Coupon := []
  banners : List Banner := []
deriving DecidableEq

/-- JavaScript truthiness of a nullable boolean column: null and false are
falsy, only true is truthy. -/
def jsTruthyBool : Option Bool → Bool
  | none => false
  | some b => b

/-- JavaScript truthiness of a nullable numeric column: null and 0 are
falsy, any other number is truthy. -/
def jsTruthyInt : Option Int → Bool
  | none => false
  | some n => n != 0

/-- Autoincrement id for an insert: one more than the largest id present. -/
def freshId (ids : List Int) : Int :=
  (ids.foldr max 0) + 1

/-- SQL LIMIT, guarded by the JavaScript truthiness test `if (limit)` in
getProducts and getProductsByCategory: a null or zero limit is not applied. -/
def applyLimit {α : Type} (limit : Option Int) (xs : List α) : List α :=
  match limit with
  | none => xs
  | some n => if n != 0 then xs.take n.toNat else xs

/-- SQL OFFSET, guarded by the JavaScript truthiness test `if (offset)`. -/
def applyOffset {α : Type} (offset : Option Int) (xs : List α) : List α :=
  match offset with
  | none => xs
  | some n => if n != 0 then xs.drop n.toNat else xs

/-- Fields of an InsertUser value. A field may be absent (outer none,
JavaScript undefined) or explicitly null (some none). -/
structure InsertUser where
  openId : String
  name : Option (Option String) := none
  email : Option (Option String) := none
  loginMethod : Option (Option String) := none
  lastSignedIn : Option Int := none
  role : Option Role := none
deriving DecidableEq

/-- The values and onDuplicateKeyUpdate set assembled by upsertUser:
a some field is written, a none field is left to its default (insert)
or left unchanged (update). -/
structure UpsertSet where
  name : Option (Option String) := none
  email : Option (Option String) := none
  loginMethod : Option (Option String) := none
  lastSignedIn : Option Int := none
  role : Option Role := none
deriving DecidableEq

/-- upsertUser from db.ts. Throws when openId is empty; when the database
handle is null it logs a warning and returns successfully without writing
(the store is returned unchanged as none). Otherwise it inserts a users
row or, when a row with the same openId exists, applies the update set to
that row. -/
def upsertUser (ownerOpenId : String) (now : Int) (db : Option Store)
    (user : InsertUser) : Except String (Option Store) :=
  if user.openId = "" then
    Except.error "User openId is required for upsert"
  else
    match db with
    | none => Except.ok none
    | some s =>
      let base : UpsertSet :=
        { name := user.name
          email := user.email
          loginMethod := user.loginMethod
          lastSignedIn := user.lastSignedIn
          role :=
            match user.role with
            | some r => some r
            | none => if user.openId = ownerOpenId then some Role.admin else none }
      let values : UpsertSet :=
        { base with
          lastSignedIn := match base.lastSignedIn with
            | some t => some t
            | none => some now }
      let updateSet : UpsertSet :=
        if base = {} then { lastSignedIn := some now } else base
      if (s.users.filter fun u => u.openId = user.openId).isEmpty then
        let row : User :=
          { id := freshId (s.users.map User.id)
            openId := user.openId
            name := (values.name).getD none
            email := (values.email).getD none
            loginMethod := (values.loginMethod).getD none
            role := (values.role).getD Role.user
            createdAt := now
            updatedAt := now
            lastSignedIn := (values.lastSignedIn).getD now }
        Except.ok (some { s with users := s.users ++ [row] })
      else
        let upd : User → User := fun u =>
          if u.openId = user.openId then
            { u with
              name := (updateSet.name).getD u.name
              email := (updateSet.email).getD u.email
              loginMethod := (updateSet.loginMethod).getD u.loginMethod
              role := (updateSet.role).getD u.role
              lastSignedIn := (updateSet.lastSignedIn).getD u.lastSignedIn
              updatedAt := now }
          else u
        Except.ok (some { s with users := s.users.map upd })

/-- getUserByOpenId from db.ts: null handle degrades to an absent result. -/
def getUserByOpenId (db : Option Store) (openId : String) : Option User :=
  match db with
  | none => none
  | some s => (s.users.filter fun u => u.openId = openId).head?

/-- getCategories from db.ts: active categories; empty on a null handle. -/
def getCategories (db : Option Store) : List Category :=
  match db with
  | none => []
  | some s => s.categories.filter fun c => c.isActive

/-- getCategoryBySlug from db.ts. -/
def getCategoryBySlug (db : Option Store) (slug : String) : Option Category :=
  match db with
  | none => none
  | some s => (s.categories.filter fun c => c.slug = slug).head?

/-- getProducts from db.ts: rows with isActive true, with optional limit
and offset applied under JavaScript truthiness. -/
def getProducts (db : Option Store) (limit offset : Option Int) : List Product :=
  match db with
  | none => []
  | some s => applyLimit limit (applyOffset offset (s.products.filter fun p => p.isActive))

/-- getProductsByCategory from db.ts: rows whose categoryId matches; note
there is no isActive filter on this path. -/
def getProductsByCategory (db : Option Store) (categoryId : Int)
    (limit offset : Option Int) : List Product :=
  match db with
  | none => []
  | some s => applyLimit limit (applyOffset offset (s.products.filter fun p => p.categoryId = categoryId))

/-- getProductById from db.ts. -/
def getProductById (db : Option Store) (id : Int) : Option Product :=
  match db with
  | none => none
  | some s => (s.products.filter fun p => p.id = id).head?

/-- getFeaturedProducts from db.ts (limit defaults to 10 at the router). -/
def getFeaturedProducts (db : Option Store) (limit : Int) : List Product :=
  match db with
  | none => []
  | some s => (s.products.filter fun p => p.isFeatured = some true).take limit.toNat

/-- getCartItems from db.ts: the rows of one user. -/
def getCartItems (db : Option Store) (userId : Int) : List CartItem :=
  match db with
  | none => []
  | some s => s.cartItems.filter fun r => r.userId = userId

/-- addToCart from db.ts: inserts a row and returns the new insert id;
throws on a null handle. -/
def addToCart (db : Option Store) (userId productId quantity : Int) :
    Except String (Store × Int) :=
  match db with
  | none => Except.error "Database not available"
  | some s =>
    let newId := freshId (s.cartItems.map CartItem.id)
    Except.ok ({ s with cartItems := s.cartItems ++
      [{ id := newId, userId := userId, productId := productId, quantity := quantity }] }, newId)

/-- updateCartItem from db.ts: sets quantity on the row with the given id.
The row is selected by id alone; no userId condition is present. -/
def updateCartItem (db : Option Store) (id quantity : Int) : Except String Store :=
  match db with
  | none => Except.error "Database not available"
  | some s =>
    Except.ok { s with cartItems := s.cartItems.map fun r =>
      if r.id = id then { r with quantity := quantity } else r }

/-- removeFromCart from db.ts: deletes the row with the given id.
The row is selected by id alone; no userId condition is present. -/
def removeFromCart (db : Option Store) (id : Int) : Except String Store :=
  match db with
  | none => Except.error "Database not available"
  | some s => Except.ok { s with cartItems := s.cartItems.filter fun r => ¬ (r.id = id) }

/-- clearCart from db.ts: deletes every cart row of the given user. -/
def clearCart (db : Option Store) (userId : Int) : Except String Store :=
  match db with
  | none => Except.error "Database not available"
  | some s => Except.ok { s with cartItems := s.cartItems.filter fun r => ¬ (r.userId = userId) }

/-- getWishlistItems from db.ts. -/
def getWishlistItems (db : Option Store) (userId : Int) : List WishlistItem :=
  match db with
  | none => []
  | some s => s.wishlistItems.filter fun r => r.userId = userId

/-- addToWishlist from db.ts. -/
def addToWishlist (db : Option Store) (userId productId : Int) :
    Except String (Store × Int) :=
  match db with
  | none => Except.error "Database not available"
  | some s =>
    let newId := freshId (s.wishlistItems.map WishlistItem.id)
    Except.ok ({ s with wishlistItems := s.wishlistItems ++
      [{ id := newId, userId := userId, productId := productId }] }, newId)

/-- removeFromWishlist from db.ts. The delete condition in the source is
eq(wishlistItems.userId, userId) alone: the productId parameter is
received but never used, so every wishlist row of the user is deleted. -/
def removeFromWishlist (db : Option Store) (userId productId : Int) :
    Except String Store :=
  match db with
  | none => Except.error "Database not available"
  | some s => Except.ok { s with wishlistItems := s.wishlistItems.filter fun r => ¬ (r.userId = userId) }

/-- getUserAddresses from db.ts. -/
def getUserAddresses (db : Option Store) (userId : Int) : List Address :=
  match db with
  | none => []
  | some s => s.addresses.filter fun a => a.userId = userId

/-- addAddress from db.ts. -/
def addAddress (db : Option Store) (row : Address) : Except String (Store × Int) :=
  match db with
  | none => Except.error "Database not available"
  | some s =>
    let newId := freshId (s.addresses.map Address.id)
    Except.ok ({ s with addresses := s.addresses ++ [{ row with id := newId }] }, newId)

/-- Partial update accepted by addresses.update: each field may be absent. -/
structure AddressUpdate where
  type : Option AddressType := none
  fullName : Option String := none
  phoneNumber : Option String := none
  addressLine1 : Option String := none
  addressLine2 : Option String := none
  city : Option String := none
  state : Option String := none
  postalCode : Option String := none
  isDefault : Option Bool := none
deriving DecidableEq

/-- updateAddress from db.ts: applies the supplied fields to the row with
the given id. -/
def updateAddress (db : Option Store) (id : Int) (data : AddressUpdate) :
    Except String Store :=
  match db with
  | none => Except.error "Database not available"
  | some s =>
    Except.ok { s with addresses := s.addresses.map fun a =>
      if a.id = id then
        { a with
          type := match data.type with | some t => some t | none => a.type
          fullName := data.fullName.getD a.fullName
          phoneNumber := data.phoneNumber.getD a.phoneNumber
          addressLine1 := data.addressLine1.getD a.addressLine1
          addressLine2 := match data.addressLine2 with | some v => some v | none => a.addressLine2
          city := data.city.getD a.city
          state := data.state.getD a.state
          postalCode := data.postalCode.getD a.postalCode
          isDefault := match data.isDefault with | some v => some v | none => a.isDefault }
      else a }

/-- deleteAddress from db.ts. -/
def deleteAddress (db : Option Store) (id : Int) : Except String Store :=
  match db with
  | none => Except.error "Database not available"
  | some s => Except.ok { s with addresses := s.addresses.filter fun a => ¬ (a.id = id) }

/-- createOrder from db.ts: inserts the supplied row as is (the id comes
from autoincrement) and returns the insert id. -/
def createOrder (db : Option Store) (row : Order) : Except String (Store × Int) :=
  match db with
  | none => Except.error "Database not available"
  | some s =>
    let newId := freshId (s.orders.map Order.id)
    Except.ok ({ s with orders := s.orders ++ [{ row with id := newId }] }, newId)

/-- getOrderById from db.ts. -/
def getOrderById (db : Option Store) (id : Int) : Option Order :=
  match db with
  | none => none
  | some s => (s.orders.filter fun o => o.id = id).head?

/-- getUserOrders from db.ts. -/
def getUserOrders (db : Option Store) (userId : Int) : List Order :=
  match db with
  | none => []
  | some s => s.orders.filter fun o => o.userId = userId

/-- updateOrderStatus from db.ts: sets the status column of the row with
the given id. The current status is not read and no transition rule is
applied: any requested status is written unconditionally. -/
def updateOrderStatus (db : Option Store) (id : Int) (status : OrderStatus) :
    Except String Store :=
  match db with
  | none => Except.error "Database not available"
  | some s =>
    Except.ok { s with orders := s.orders.map fun o =>
      if o.id = id then { o with status := status } else o }

/-- updatePaymentStatus from db.ts: sets paymentStatus and, when a
paymentId is supplied and truthy (non-empty), also paymentId. -/
def updatePaymentStatus (db : Option Store) (id : Int) (paymentStatus : PaymentState)
    (paymentId : Option String) : Except String Store :=
  match db with
  | none => Except.error "Database not available"
  | some s =>
    Except.ok { s with orders := s.orders.map fun o =>
      if o.id = id then
        match paymentId with
        | some p => if p ≠ "" then { o with paymentStatus := paymentStatus, paymentId := some p }
                    else { o with paymentStatus := paymentStatus }
        | none => { o with paymentStatus := paymentStatus }
      else o }

/-- createOrderItem from db.ts. -/
def createOrderItem (db : Option Store) (row : OrderItem) : Except String (Store × Int) :=
  match db with
  | none => Except.error "Database not available"
  | some s =>
    let newId := freshId (s.orderItems.map OrderItem.id)
    Except.ok ({ s with orderItems := s.orderItems ++ [{ row with id := newId }] }, newId)

/-- getOrderItems from db.ts. -/
def getOrderItems (db : Option Store) (orderId : Int) : List OrderItem :=
  match db with
  | none => []
  | some s => s.orderItems.filter fun i => i.orderId = orderId

/-- getProductReviews from db.ts. -/
def getProductReviews (db : Option Store) (productId : Int) : List Review :=
  match db with
  | none => []
  | some s => s.reviews.filter fun r => r.productId = productId

/-- createReview from db.ts. -/
def createReview (db : Option Store) (row : Review) : Except String (Store × Int) :=
  match db with
  | none => Except.error "Database not available"
  | some s =>
    let newId := freshId (s.reviews.map Review.id)
    Except.ok ({ s with reviews := s.reviews ++ [{ row with id := newId }] }, newId)

/-- getCouponByCode from db.ts. -/
def getCouponByCode (db : Option Store) (code : String) : Option Coupon :=
  match db with
  | none => none
  | some s => (s.coupons.filter fun c => c.code = code).head?

/-- getActiveBanners from db.ts: rows with isActive equal to true. -/
def getActiveBanners (db : Option Store) : List Banner :=
  match db with
  | none => []
  | some s => s.banners.filter fun b => b.isActive = some true

/-- Expiry test of validateCoupon: `coupon.expiryDate && new Date() >
coupon.expiryDate`. A non-null Date is always truthy; the comparison is a
strict one on the time value. -/
def couponExpired (c : Coupon) (now : Int) : Bool :=
  match c.expiryDate with
  | none => false
  | some e => now > e

/-- Usage test of validateCoupon: `coupon.usageLimit && (coupon.usageCount
|| 0) >= coupon.usageLimit`. A null or zero usageLimit is falsy and skips
the check; a null usageCount counts as 0. -/
def couponUsageReached (c : Coupon) : Bool :=
  match c.usageLimit with
  | none => false
  | some l => l != 0 && c.usageCount.getD 0 ≥ l

/-- Minimum-order test of validateCoupon: `coupon.minOrderAmount &&
orderAmount < coupon.minOrderAmount`. A null or zero minOrderAmount is
falsy and skips the check. -/
def couponBelowMinimum (c : Coupon) (orderAmount : Int) : Bool :=
  match c.minOrderAmount with
  | none => false
  | some m => m != 0 && orderAmount < m

/-- Result of validateCoupon: either invalid with one message, or valid
with the coupon record. -/
inductive CouponResult where
  | invalid (message : String)
  | valid (coupon : Coupon)
deriving DecidableEq

/-- validateCoupon from db.ts: looks the code up, then runs the checks in
source order: not found, inactive, expired, usage limit, minimum order.
The first failing check produces the message; later checks are not run. -/
def validateCoupon (db : Option Store) (code : String) (orderAmount : Int)
    (now : Int) : CouponResult :=
  match getCouponByCode db code with
  | none => CouponResult.invalid "Coupon not found"
  | some coupon =>
    if jsTruthyBool coupon.isActive = false then CouponResult.invalid "Coupon is inactive"
    else if couponExpired coupon now then CouponResult.invalid "Coupon expired"
    else if couponUsageReached coupon then CouponResult.invalid "Coupon usage limit reached"
    else if couponBelowMinimum coupon orderAmount then CouponResult.invalid "Order amount below minimum"
    else CouponResult.valid coupon

/-- Input shape accepted by the orders.create procedure (routers.ts): the
zod object places no constraint on the numeric fields beyond being
numbers, so any Int is an accepted value. -/
structure OrderCreateInput where
  addressId : Int
  subtotal : Int
  discountAmount : Option Int := none
  deliveryCharge : Option Int := none
  totalAmount : Int
  paymentMethod : PayMethod
  couponCode : Option String := none
  notes : Option String := none
deriving DecidableEq

/-- The orders row assembled by orders.create (routers.ts): the input
fields are spread into the row unchanged, with userId from the session,
a generated orderNumber, and paymentStatus and status both pending. The
absent optional amounts take the column default 0 at insert. No
relation between subtotal, discountAmount, deliveryCharge and
totalAmount is checked anywhere on this path. -/
def ordersCreateRow (userId : Int) (orderNumber : String)
    (input : OrderCreateInput) : Order :=
  { id := 0
    userId := userId
    orderNumber := orderNumber
    addressId := input.addressId
    subtotal := input.subtotal
    discountAmount := input.discountAmount.getD 0
    deliveryCharge := input.deliveryCharge.getD 0
    totalAmount := input.totalAmount
    status := OrderStatus.pending
    paymentMethod := some input.paymentMethod
    paymentStatus := PaymentState.pending
    couponCode := input.couponCode
    notes := input.notes }

/-- orders.create as a whole: build the row and insert it via createOrder. -/
def ordersCreate (caller : Int) (orderNumber : String) (db : Option Store)
    (input : OrderCreateInput) : Except String (Store × Int) :=
  createOrder db (ordersCreateRow caller orderNumber input)

/-- cart.list (routers.ts): reads the rows of the session user. -/
def cartList (caller : Int) (db : Option Store) : List CartItem :=
  getCartItems db caller

/-- cart.add (routers.ts): inserts for the session user. -/
def cartAdd (caller : Int) (db : Option Store) (productId quantity : Int) :
    Except String (Store × Int) :=
  addToCart db caller productId quantity

/-- cart.update (routers.ts): forwards only the row id and quantity; the
session user is not consulted. -/
def cartUpdate (caller : Int) (db : Option Store) (id quantity : Int) :
    Except String Store :=
  updateCartItem db id quantity

/-- cart.remove (routers.ts): forwards only the row id; the session user
is not consulted. -/
def cartRemove (caller : Int) (db : Option Store) (id : Int) :
    Except String Store :=
  removeFromCart db id

/-- cart.clear (routers.ts): clears the rows of the session user. -/
def cartClear (caller : Int) (db : Option Store) : Except String Store :=
  clearCart db caller

/-- wishlist.remove (routers.ts): forwards the session user and the
productId to removeFromWishlist. -/
def wishlistRemove (caller : Int) (db : Option Store) (productId : Int) :
    Except String Store :=
  removeFromWishlist db caller productId

/-- getDiscountedPrice from index.tsx: price times (1 minus
discountPercentage over 100), computed with no rounding, over the exact
rationals. -/
def getDiscountedPrice (price : ℚ) (discountPercentage : ℚ) : ℚ :=
  price * (1 - discountPercentage / 100)

/-- Modelled from the spec: no delivery-OTP verification routine exists
under src (the schema declares deliveryOtp, deliveryOtpExpiry and
deliveryOtpVerified on orders, and the design document leaves the OTP
phase unimplemented). Spec section 4.3: verification succeeds only if the
supplied code matches the stored code exactly and the current time is
before the stored expiry; an absent code or expiry cannot verify. -/
def verifyDeliveryOtp (storedOtp : Option String) (storedExpiry : Option Int)
    (supplied : String) (now : Int) : Bool :=
  match storedOtp, storedExpiry with
  | some otp, some expiry => supplied = otp && now < expiry
  | _, _ => false

/-! Theorems settling the claims. -/

/-- Concrete orders.create input: subtotal 0, no discount, no delivery
charge, totalAmount minus five. Accepted by the zod shape, which places
no constraint on the amounts. -/
def c1Input : OrderCreateInput :=
  { addressId := 1
    subtotal := 0
    totalAmount := -5
    paymentMethod := PayMethod.cod }

/-- Claim C1, as stated, is false: orders.create accepts and stores any
combination of amounts. The input c1Input produces a row violating both
totalAmount = subtotal minus discountAmount plus deliveryCharge and
totalAmount at least 0. -/
theorem c1_counterexample :
    ¬ ((ordersCreateRow 7 "ORD-1" c1Input).totalAmount =
        (ordersCreateRow 7 "ORD-1" c1Input).subtotal -
        (ordersCreateRow 7 "ORD-1" c1Input).discountAmount +
        (ordersCreateRow 7 "ORD-1" c1Input).deliveryCharge ∧
      0 ≤ (ordersCreateRow 7 "ORD-1" c1Input).totalAmount) := by
  decide

/-- Claim C1 amended: orders.create copies the supplied amounts into the
order row unchanged (absent discountAmount and deliveryCharge default to
0), so the produced row satisfies totalAmount = subtotal minus
discountAmount plus deliveryCharge with totalAmount at least 0 exactly
when the supplied input already satisfies that relation; the procedure
itself enforces nothing. -/
theorem c1_amended (uid : Int) (n : String) (input : OrderCreateInput) :
    ((ordersCreateRow uid n input).totalAmount =
        (ordersCreateRow uid n input).subtotal -
        (ordersCreateRow uid n input).discountAmount +
        (ordersCreateRow uid n input).deliveryCharge ∧
      0 ≤ (ordersCreateRow uid n input).totalAmount)
    ↔ (input.totalAmount = input.subtotal - input.discountAmount.getD 0 +
        input.deliveryCharge.getD 0 ∧ 0 ≤ input.totalAmount) :=
  Iff.rfl

/-- Claim C2: validateCoupon runs its checks in the order not-found,
inactive, expired, usage limit, minimum order, and answers with the first
failing check. For a coupon that is found, active, strictly past its
expiry and at or over its usage limit, the answer is the expired message,
not the usage-limit message, whatever the order amount. -/
theorem c2_expired_before_usage_limit (db : Option Store) (code : String)
    (amount now e l : Int) (c : Coupon)
    (hfind : getCouponByCode db code = some c)
    (hactive : c.isActive = some true)
    (hexp : c.expiryDate = some e) (hpast : e < now)
    (hlim : c.usageLimit = some l) (hreach : c.usageCount.getD 0 ≥ l) :
    validateCoupon db code amount now = CouponResult.invalid "Coupon expired" := by
  unfold validateCoupon
  rw [hfind]
  have h1 : jsTruthyBool c.isActive = true := by rw [hactive]; rfl
  have h2 : couponExpired c now = true := by
    unfold couponExpired
    rw [hexp]
    simp only [decide_eq_true_eq]
    omega
  simp [h1, h2]

/-- Coupon that is both expired (at any time after 100) and at its usage
limit: usage 1 of limit 1. -/
def c2Coupon : Coupon :=
  { id := 1
    code := "SAVE10"
    discountType := DiscountType.fixed
    discountValue := 1000
    usageLimit := some 1
    usageCount := some 1
    expiryDate := some 100
    isActive := some true }

/-- Store holding only c2Coupon. -/
def c2Store : Store := { coupons := [c2Coupon] }

/-- Witness for claim C2 at a concrete store: the coupon SAVE10 expired at
time 100 with usage 1 of limit 1; validated at time 200 against amount
5000 it reports the expired message. -/
theorem c2_witness :
    validateCoupon (some c2Store) "SAVE10" 5000 200 =
      CouponResult.invalid "Coupon expired" :=
  c2_expired_before_usage_limit (some c2Store) "SAVE10" 5000 200 100 1 c2Coupon
    (by decide) rfl rfl (by decide) rfl (by decide)

/-- Coupon with a set (non-null) usageLimit of 0: its usageCount 0 is at
the limit, yet the JavaScript truthiness guard skips the check. -/
def c3Coupon : Coupon :=
  { id := 2
    code := "ZEROLIM"
    discountType := DiscountType.fixed
    discountValue := 500
    usageLimit := some 0
    usageCount := some 0 }

/-- Store holding only c3Coupon. -/
def c3Store : Store := { coupons := [c3Coupon] }

/-- Claim C3, as stated, is false: the usage-limit check is guarded by
JavaScript truthiness, so a coupon whose usageLimit is set to 0 (non-null,
with usageCount 0 at or over that limit, active, unexpired) skips the
check and validates successfully instead of reporting the usage-limit
message. -/
theorem c3_counterexample :
    (c3Coupon.usageLimit = some 0 ∧ c3Coupon.usageCount.getD 0 ≥ 0) ∧
    couponExpired c3Coupon 0 = false ∧
    jsTruthyBool c3Coupon.isActive = true ∧
    validateCoupon (some c3Store) "ZEROLIM" 9999 0 =
      CouponResult.valid c3Coupon := by
  decide

/-- Claim C3 amended: for every coupon whose usageLimit is set and
non-zero and whose usageCount (0 when null) has reached that limit, and
which passes the not-found, inactive and expired checks, validateCoupon
reports the usage-limit message, for every order amount. -/
theorem c3_usage_limit_reported (db : Option Store) (code : String)
    (amount now l : Int) (c : Coupon)
    (hfind : getCouponByCode db code = some c)
    (hactive : jsTruthyBool c.isActive = true)
    (hnexp : couponExpired c now = false)
    (hlim : c.usageLimit = some l) (hl0 : l ≠ 0)
    (hreach : c.usageCount.getD 0 ≥ l) :
    validateCoupon db code amount now =
      CouponResult.invalid "Coupon usage limit reached" := by
  unfold validateCoupon
  rw [hfind]
  have hu : couponUsageReached c = true := by
    unfold couponUsageReached
    rw [hlim]
    simp only [Bool.and_eq_true, bne_iff_ne, ne_eq, decide_eq_true_eq]
    exact ⟨hl0, hreach⟩
  simp [hactive, hnexp, hu]

/-- Coupon with usage 3 of limit 1, active and unexpired. -/
def c3LimCoupon : Coupon :=
  { id := 3
    code := "ONEUSE"
    discountType := DiscountType.percentage
    discountValue := 10
    usageLimit := some 1
    usageCount := some 3 }

/-- Store holding only c3LimCoupon. -/
def c3LimStore : Store := { coupons := [c3LimCoupon] }

/-- Witness for the amended claim C3 at a concrete store: coupon ONEUSE
with usage 3 of limit 1, active and unexpired, reports the usage-limit
message. -/
theorem c3_witness :
    validateCoupon (some c3LimStore) "ONEUSE" 4242 0 =
      CouponResult.invalid "Coupon usage limit reached" :=
  c3_usage_limit_reported (some c3LimStore) "ONEUSE" 4242 0 1 c3LimCoupon
    (by decide) rfl rfl rfl (by decide) (by decide)

/-- Order stored in the delivered state. -/
def c4Order : Order :=
  { id := 1
    userId := 3
    orderNumber := "ORD-7"
    addressId := 1
    subtotal := 1000
    totalAmount := 1000
    status := OrderStatus.delivered }

/-- Store holding only c4Order. -/
def c4Store : Store := { orders := [c4Order] }

/-- Claim C4, as stated, is false: updateOrderStatus never reads the
current status, so an order stored as delivered accepts a further update
back to pending. The call succeeds and the stored status changes. -/
theorem c4_counterexample :
    c4Order.status = OrderStatus.delivered ∧
    updateOrderStatus (some c4Store) 1 OrderStatus.pending =
      Except.ok { c4Store with orders := [{ c4Order with status := OrderStatus.pending }] } :=
  ⟨rfl, rfl⟩

/-- Claim C4 amended: updateOrderStatus applies any requested status to
the matching order unconditionally; no state is terminal. For every
store, every stored order matching the requested id (in particular one
whose status is delivered or cancelled) and every target status, the call
succeeds and the resulting store contains that order with the target
status. -/
theorem c4_status_overwritten (s : Store) (id : Int) (st : OrderStatus)
    (o : Order) (hmem : o ∈ s.orders) (hid : o.id = id) :
    ∃ s2, updateOrderStatus (some s) id st = Except.ok s2 ∧
      { o with status := st } ∈ s2.orders := by
  refine ⟨_, rfl, ?_⟩
  have h2 := List.mem_map_of_mem
    (fun o2 : Order => if o2.id = id then { o2 with status := st } else o2) hmem
  simpa [hid] using h2

/-- Witness for the amended claim C4: the delivered order c4Order is
overwritten to pending. -/
theorem c4_witness :
    ∃ s2, updateOrderStatus (some c4Store) 1 OrderStatus.pending = Except.ok s2 ∧
      { c4Order with status := OrderStatus.pending } ∈ s2.orders :=
  c4_status_overwritten c4Store 1 OrderStatus.pending c4Order (by decide) rfl

/-- Claim C5, as stated, is false: getDiscountedPrice performs no
rounding. At price 101 minor units and discount percentage 50 the result
is 101 halves, a fractional number of minor units (denominator 2, not an
integer). -/
theorem c5_counterexample :
    getDiscountedPrice 101 50 = 101 / 2 ∧ (getDiscountedPrice 101 50).den ≠ 1 := by
  constructor
  · norm_num [getDiscountedPrice]
  · norm_num [getDiscountedPrice]

/-- Claim C5 amended: the discounted price equals price times (1 minus
discountPercentage over 100) computed exactly with no rounding, so it may
be a fractional number of minor units; for price at least 0 and
discountPercentage in the interval from 0 to 100 it never exceeds the
price. -/
theorem c5_discount_le_price (price dp : ℚ) (hp : 0 ≤ price) (h0 : 0 ≤ dp)
    (h1 : dp ≤ 100) :
    getDiscountedPrice price dp = price * (1 - dp / 100) ∧
    getDiscountedPrice price dp ≤ price := by
  refine ⟨rfl, ?_⟩
  unfold getDiscountedPrice
  have hd : 0 ≤ price * (dp / 100) := by positivity
  nlinarith

/-- Witness for the amended claim C5 at price 101, discount 50. -/
theorem c5_witness :
    getDiscountedPrice 101 50 = 101 * (1 - 50 / 100) ∧
    getDiscountedPrice 101 50 ≤ 101 :=
  c5_discount_le_price 101 50 (by norm_num) (by norm_num) (by norm_num)

/-- Cart row owned by user 2. -/
def c6Row : CartItem :=
  { id := 1
    userId := 2
    productId := 10
    quantity := 1 }

/-- Store holding only the cart row of user 2. -/
def c6Store : Store := { cartItems := [c6Row] }

/-- Claim C6, as stated, is false: cart.update forwards only the row id,
so a call by user 1 with the id of the row owned by user 2 changes that
row (quantity 1 becomes 5) instead of leaving every row of user 2
unchanged. -/
theorem c6_counterexample :
    (1 : Int) ≠ 2 ∧ c6Row.userId = 2 ∧
    cartUpdate 1 (some c6Store) 1 5 =
      Except.ok { c6Store with cartItems := [{ c6Row with quantity := 5 }] } :=
  ⟨by decide, rfl, rfl⟩

/-- Rows of one user surviving a filter that drops another user: with A
and B distinct, filtering the rows of B out of the rows kept by dropping
the rows of A changes nothing. -/
theorem filter_user_of_erase_other (A B : Int) (hAB : A ≠ B) (l : List CartItem) :
    ((l.filter fun r => ¬ (r.userId = A)).filter fun r => r.userId = B) =
      l.filter fun r => r.userId = B := by
  rw [List.filter_filter]
  refine List.filter_congr ?_
  intro r _
  by_cases hB : r.userId = B
  · have hA : ¬ (r.userId = A) := by rw [hB]; exact fun h => hAB h.symm
    simp [hA, hB]
    exact fun h => hAB h.symm
  · simp [hB]

/-- Claim C6 amended: cart.list, cart.add and cart.clear are scoped to
the session user, so for distinct users A and B they leave the rows of B
unchanged and cart.list by A returns only rows owned by A; cart.update
and cart.remove, however, are scoped only by the row id, so what they
preserve is every row whose id differs from the supplied one, regardless
of owner. -/
theorem c6_cart_scoping (A B : Int) (hAB : A ≠ B) (s : Store) (p q id qty : Int) :
    (∀ s2 n, cartAdd A (some s) p q = Except.ok (s2, n) →
        getCartItems (some s2) B = getCartItems (some s) B) ∧
    (∀ s2, cartClear A (some s) = Except.ok s2 →
        getCartItems (some s2) B = getCartItems (some s) B) ∧
    (∀ r ∈ cartList A (some s), r.userId = A) ∧
    (∀ s2, cartUpdate A (some s) id qty = Except.ok s2 →
        ∀ r ∈ s.cartItems, r.id ≠ id → r ∈ s2.cartItems) ∧
    (∀ s2, cartRemove A (some s) id = Except.ok s2 →
        ∀ r ∈ s.cartItems, r.id ≠ id → r ∈ s2.cartItems) := by
  refine ⟨?_, ?_, ?_, ?_, ?_⟩
  · intro s2 n h
    simp only [cartAdd, addToCart, Except.ok.injEq, Prod.mk.injEq] at h
    obtain ⟨hs2, -⟩ := h
    subst hs2
    simp only [getCartItems, List.filter_append]
    simp [hAB]
  · intro s2 h
    simp only [cartClear, clearCart, Except.ok.injEq] at h
    subst h
    exact filter_user_of_erase_other A B hAB s.cartItems
  · intro r hr
    simp only [cartList, getCartItems, List.mem_filter, decide_eq_true_eq] at hr
    exact hr.2
  · intro s2 h r hr hid
    simp only [cartUpdate, updateCartItem, Except.ok.injEq] at h
    subst h
    have h2 := List.mem_map_of_mem
      (fun r2 : CartItem => if r2.id = id then { r2 with quantity := qty } else r2) hr
    simp only [hid, if_false] at h2
    exact h2
  · intro s2 h r hr hid
    simp only [cartRemove, removeFromCart, Except.ok.injEq] at h
    subst h
    exact List.mem_filter.mpr ⟨hr, by simp [hid]⟩

/-- Witness for the amended claim C6 at the concrete store c6Store with
users 1 and 2. -/
theorem c6_witness :
    (∀ s2 n, cartAdd 1 (some c6Store) 10 1 = Except.ok (s2, n) →
        getCartItems (some s2) 2 = getCartItems (some c6Store) 2) ∧
    (∀ s2, cartClear 1 (some c6Store) = Except.ok s2 →
        getCartItems (some s2) 2 = getCartItems (some c6Store) 2) ∧
    (∀ r ∈ cartList 1 (some c6Store), r.userId = 1) ∧
    (∀ s2, cartUpdate 1 (some c6Store) 1 5 = Except.ok s2 →
        ∀ r ∈ c6Store.cartItems, r.id ≠ 1 → r ∈ s2.cartItems) ∧
    (∀ s2, cartRemove 1 (some c6Store) 1 = Except.ok s2 →
        ∀ r ∈ c6Store.cartItems, r.id ≠ 1 → r ∈ s2.cartItems) :=
  c6_cart_scoping 1 2 (by decide) c6Store 10 1 1 5

/-- Wishlist item of user 1 for product 1. -/
def c7ItemP1 : WishlistItem :=
  { id := 1
    userId := 1
    productId := 1 }

/-- Wishlist item of user 1 for product 2. -/
def c7ItemP2 : WishlistItem :=
  { id := 2
    userId := 1
    productId := 2 }

/-- Store in which user 1 holds wishlist items for products 1 and 2. -/
def c7Store : Store := { wishlistItems := [c7ItemP1, c7ItemP2] }

/-- Claim C7 names the intended behaviour; the code diverges from it. The
delete condition of removeFromWishlist is on userId alone, ignoring the
productId parameter the function itself declares, so removing product 1
for user 1 also deletes the item for product 2: the resulting wishlist is
empty. -/
theorem c7_code_behavior :
    c7ItemP2 ∈ c7Store.wishlistItems ∧
    wishlistRemove 1 (some c7Store) 1 =
      Except.ok { c7Store with wishlistItems := [] } :=
  ⟨by decide, rfl⟩

/-- Claim C8, as stated, is false: upsertUser is a write path that, on a
null database handle, logs a warning and returns success without writing
anything, instead of raising an error. -/
theorem c8_counterexample :
    upsertUser "owner-open-id" 0 none { openId := "user-1" } = Except.ok none :=
  rfl

/-- Claim C8 amended: with the database handle null, every read-path
access function returns an empty or absent result, and every write-path
access function except upsertUser raises the database-not-available
error; upsertUser alone returns success without writing, provided its
openId guard passes. -/
theorem c8_store_unavailable (openId slug code : String) (a b c lim10 : Int)
    (lim off : Option Int) (addr : Address) (au : AddressUpdate) (ord : Order)
    (item : OrderItem) (rev : Review) (st : OrderStatus) (ps : PaymentState)
    (pid : Option String) (owner : String) (now : Int) (u : InsertUser)
    (hu : u.openId ≠ "") :
    getUserByOpenId none openId = none ∧
    getCategories none = [] ∧
    getCategoryBySlug none slug = none ∧
    getProducts none lim off = [] ∧
    getProductsByCategory none a lim off = [] ∧
    getProductById none a = none ∧
    getFeaturedProducts none lim10 = [] ∧
    getCartItems none a = [] ∧
    getWishlistItems none a = [] ∧
    getUserAddresses none a = [] ∧
    getOrderById none a = none ∧
    getUserOrders none a = [] ∧
    getOrderItems none a = [] ∧
    getProductReviews none a = [] ∧
    getCouponByCode none code = none ∧
    getActiveBanners none = [] ∧
    addToCart none a b c = Except.error "Database not available" ∧
    updateCartItem none a b = Except.error "Database not available" ∧
    removeFromCart none a = Except.error "Database not available" ∧
    clearCart none a = Except.error "Database not available" ∧
    addToWishlist none a b = Except.error "Database not available" ∧
    removeFromWishlist none a b = Except.error "Database not available" ∧
    addAddress none addr = Except.error "Database not available" ∧
    updateAddress none a au = Except.error "Database not available" ∧
    deleteAddress none a = Except.error "Database not available" ∧
    createOrder none ord = Except.error "Database not available" ∧
    updateOrderStatus none a st = Except.error "Database not available" ∧
    updatePaymentStatus none a ps pid = Except.error "Database not available" ∧
    createOrderItem none item = Except.error "Database not available" ∧
    createReview none rev = Except.error "Database not available" ∧
    upsertUser owner now none u = Except.ok none := by
  refine ⟨rfl, rfl, rfl, rfl, rfl, rfl, rfl, rfl, rfl, rfl, rfl, rfl, rfl, rfl,
    rfl, rfl, rfl, rfl, rfl, rfl, rfl, rfl, rfl, rfl, rfl, rfl, rfl, rfl, rfl,
    rfl, ?_⟩
  unfold upsertUser
  rw [if_neg hu]

/-- Concrete address row for exercising the write paths. -/
def c8Addr : Address :=
  { id := 1
    userId := 1
    fullName := "A B"
    phoneNumber := "0"
    addressLine1 := "Street"
    city := "City"
    state := "State"
    postalCode := "00000" }

/-- Concrete order row for exercising the write paths. -/
def c8Order : Order :=
  { id := 1
    userId := 1
    orderNumber := "ORD-8"
    addressId := 1
    subtotal := 100
    totalAmount := 100 }

/-- Concrete order item for exercising the write paths. -/
def c8Item : OrderItem :=
  { id := 1
    orderId := 1
    productId := 1
    productName := "Rice"
    quantity := 1
    price := 100 }

/-- Concrete review for exercising the write paths. -/
def c8Review : Review :=
  { id := 1
    productId := 1
    userId := 1
    rating := 5 }

/-- Witness for the amended claim C8 at concrete inputs. -/
theorem c8_witness :
    getUserByOpenId none "u" = none ∧
    getCategories none = [] ∧
    getCategoryBySlug none "s" = none ∧
    getProducts none none none = [] ∧
    getProductsByCategory none 1 none none = [] ∧
    getProductById none 1 = none ∧
    getFeaturedProducts none 10 = [] ∧
    getCartItems none 1 = [] ∧
    getWishlistItems none 1 = [] ∧
    getUserAddresses none 1 = [] ∧
    getOrderById none 1 = none ∧
    getUserOrders none 1 = [] ∧
    getOrderItems none 1 = [] ∧
    getProductReviews none 1 = [] ∧
    getCouponByCode none "c" = none ∧
    getActiveBanners none = [] ∧
    addToCart none 1 2 3 = Except.error "Database not available" ∧
    updateCartItem none 1 2 = Except.error "Database not available" ∧
    removeFromCart none 1 = Except.error "Database not available" ∧
    clearCart none 1 = Except.error "Database not available" ∧
    addToWishlist none 1 2 = Except.error "Database not available" ∧
    removeFromWishlist none 1 2 = Except.error "Database not available" ∧
    addAddress none c8Addr = Except.error "Database not available" ∧
    updateAddress none 1 {} = Except.error "Database not available" ∧
    deleteAddress none 1 = Except.error "Database not available" ∧
    createOrder none c8Order = Except.error "Database not available" ∧
    updateOrderStatus none 1 OrderStatus.pending = Except.error "Database not available" ∧
    updatePaymentStatus none 1 PaymentState.pending none = Except.error "Database not available" ∧
    createOrderItem none c8Item = Except.error "Database not available" ∧
    createReview none c8Review = Except.error "Database not available" ∧
    upsertUser "owner" 0 none { openId := "user-1" } = Except.ok none :=
  c8_store_unavailable "u" "s" "c" 1 2 3 10 none none c8Addr {} c8Order c8Item
    c8Review OrderStatus.pending PaymentState.pending none "owner" 0
    { openId := "user-1" } (by decide)

/-- Claim C9 holds of the verification rule modelled from the spec:
verifying with the matching code does not succeed once the stored expiry
is strictly before the current time. -/
theorem c9_expired_otp_rejected (otp code : String) (e now : Int)
    (hexp : e < now) :
    verifyDeliveryOtp (some otp) (some e) code now = false := by
  unfold verifyDeliveryOtp
  have h : ¬ (now < e) := by omega
  simp [h]

/-- Witness for claim C9: the stored code 123456 with expiry 0, verified
with the identical code at time 1, is rejected. -/
theorem c9_witness :
    verifyDeliveryOtp (some "123456") (some 0) "123456" 1 = false :=
  c9_expired_otp_rejected "123456" "123456" 0 1 (by decide)

/-- Claim C10: getProductsByCategory filters by categoryId only, so an
inactive product of the category is returned (no limit or offset
supplied), while getProducts returns only rows whose isActive flag is
true. -/
theorem c10_category_ignores_active (s : Store) (catId : Int) (p : Product)
    (hmem : p ∈ s.products) (hcat : p.categoryId = catId)
    (hinact : p.isActive = false) :
    p ∈ getProductsByCategory (some s) catId none none ∧
    ∀ q ∈ getProducts (some s) none none, q.isActive = true := by
  constructor
  · simp only [getProductsByCategory, applyLimit, applyOffset]
    exact List.mem_filter.mpr ⟨hmem, by simp [hcat]⟩
  · intro q hq
    simp only [getProducts, applyLimit, applyOffset, List.mem_filter] at hq
    simpa using hq.2

/-- Inactive product of category 5. -/
def c10Product : Product :=
  { id := 1
    categoryId := 5
    name := "Ghost"
    price := 100
    isActive := false }

/-- Store holding only the inactive product. -/
def c10Store : Store := { products := [c10Product] }

/-- Witness for claim C10 at a concrete store: the inactive product shows
up under its category but the active-only listing is empty of inactive
rows. -/
theorem c10_witness :
    c10Product ∈ getProductsByCategory (some c10Store) 5 none none ∧
    ∀ q ∈ getProducts (some c10Store) none none, q.isActive = true :=
  c10_category_ignores_active c10Store 5 c10Product (by decide) rfl rfl

end ECom


